import Mathlib

/-!
Shallow embedding of src/static/js/likes.js (the like-toggle controller of
flask-cafe). The script defines three async functions: processLike (the
submit handler), likeCafe and unlikeCafe. We model one handler invocation
as a pure function from an environment (the DOM attribute and what each
awaited network call yields) to an outcome: the ordered trace of observable
events, the final text of the like button, and whether the async function
resolved or rejected.
-/

namespace LikesJs

/-- A JavaScript value, as produced by resp.json(): the JSON values plus
undefined (undefined itself cannot be produced by JSON parsing, but it is
the result of reading an absent property). -/
inductive JSVal where
  | undefined
  | null
  | bool (b : Bool)
  | num (n : Int)
  | str (s : String)
  | obj (fields : List (String × JSVal))

/-- JavaScript truthiness of a value, as used by the if-test in processLike. -/
def truthy : JSVal → Bool
  | .undefined => false
  | .null => false
  | .bool b => b
  | .num n => n != 0
  | .str s => s != ""
  | .obj _ => true

/-- First binding of a key in an object field list. -/
def lookupField : List (String × JSVal) → String → Option JSVal
  | [], _ => none
  | (k, v) :: rest, key => if k = key then some v else lookupField rest key

/-- A JavaScript property read o.k, as in likedData.likes: reading from
null or undefined throws a TypeError (modelled as Except.error); a missing
property of an object, and any property of another primitive, is undefined. -/
def getProp : JSVal → String → Except Unit JSVal
  | .null, _ => .error ()
  | .undefined, _ => .error ()
  | .obj fields, key => .ok ((lookupField fields key).getD .undefined)
  | _, _ => .ok .undefined

/-- JSON string quoting used by JSON.stringify on a string value. -/
def jsonEscapeChar (c : Char) : String :=
  if c = '"' then "\\\"" else if c = '\\' then "\\\\" else String.singleton c

/-- JSON serialization of a string value. -/
def jsonQuote (s : String) : String :=
  "\"" ++ String.join (s.toList.map jsonEscapeChar) ++ "\""

/-- The result of the jQuery attribute read attr("cafe-id"): a string when
the attribute is present, undefined (none) when it is absent. This is the
only value ever passed as cafeId. -/
def AttrVal : Type := Option String

/-- Template-literal interpolation of the attribute value, as in the URL
template of processLike: undefined prints as the literal string undefined. -/
def jsToString : Option String → String
  | none => "undefined"
  | some s => s

/-- JSON.stringify of the mutation body object built from cafe_id: an
undefined-valued property is omitted by JSON.stringify, so an absent
attribute yields the empty object. -/
def stringifyCafeId : Option String → String
  | none => "\x7b\x7d"
  | some s => "\x7b\"cafe_id\":" ++ jsonQuote s ++ "\x7d"

/-- One observable step of a handler invocation, in program order. -/
inductive Event where
  | preventDefault
  | getRequest (url : String)
  | postRequest (url : String) (body : String) (headers : List (String × String))
  | awaitResponse (url : String)
  | setText (elemId : String) (text : String)
  | consoleLog
  deriving DecidableEq

/-- The environment of one invocation: the cafe-id attribute of the form
(none when absent), what awaiting the GET /api/likes fetch and its json()
yields (error covers both a rejected fetch and a JSON parse failure), the
HTTP status of the mutation response (never read by the script), and what
awaiting the mutation fetch and its json() yields. initialLabel is the
button text before the invocation. -/
structure Env where
  cafeAttr : Option String
  likesResp : Except Unit JSVal
  mutStatus : Nat
  mutResp : Except Unit JSVal
  initialLabel : String

/-- The outcome of one invocation: the event trace in program order, the
final text of the like button, and whether the async function resolved
(true) or rejected with an unhandled error (false). -/
structure Outcome where
  events : List Event
  label : String
  resolved : Bool

/-- Embedding of likeCafe: writes the label Liked, then POSTs the JSON body
to /api/like with a JSON content-type header, awaits the response and its
json(), and logs it. A rejected await aborts before the log. -/
def likeCafe (env : Env) (cafeId : Option String) : Outcome :=
  let write := Event.setText "like-btn" "Liked"
  let req := Event.postRequest "/api/like" (stringifyCafeId cafeId)
    [("Content-Type", "application/json")]
  let awalt := Event.awaitResponse "/api/like"
  match env.mutResp with
  | .error _ => ⟨[write, req, awalt], "Liked", false⟩
  | .ok _ => ⟨[write, req, awalt, .consoleLog], "Liked", true⟩

/-- Embedding of unlikeCafe: writes the label Like, then POSTs the JSON
body to /api/unlike; otherwise identical to likeCafe. -/
def unlikeCafe (env : Env) (cafeId : Option String) : Outcome :=
  let write := Event.setText "like-btn" "Like"
  let req := Event.postRequest "/api/unlike" (stringifyCafeId cafeId)
    [("Content-Type", "application/json")]
  let awalt := Event.awaitResponse "/api/unlike"
  match env.mutResp with
  | .error _ => ⟨[write, req, awalt], "Like", false⟩
  | .ok _ => ⟨[write, req, awalt, .consoleLog], "Like", true⟩

/-- Embedding of processLike: prevents the default submission, reads the
cafe-id attribute, GETs /api/likes with the interpolated id, awaits the
response and its json(), reads the likes property, and branches on its
truthiness to unlikeCafe or likeCafe. A rejected await or a throwing
property read aborts the invocation with the label unchanged. -/
def processLike (env : Env) : Outcome :=
  let cafeId := env.cafeAttr
  let url := "/api/likes?cafe_id=" ++ jsToString cafeId
  let pre := [Event.preventDefault, Event.getRequest url, Event.awaitResponse url]
  match env.likesResp with
  | .error _ => ⟨pre, env.initialLabel, false⟩
  | .ok likedData =>
    match getProp likedData "likes" with
    | .error _ => ⟨pre, env.initialLabel, false⟩
    | .ok liked =>
      let sub := if truthy liked then unlikeCafe env cafeId else likeCafe env cafeId
      ⟨pre ++ sub.events, sub.label, sub.resolved⟩

/-- Recognizes a POST to a given URL. -/
def isPostTo (url : String) : Event → Bool
  | .postRequest u _ _ => u == url
  | _ => false

/-- Recognizes any POST (mutation) request. -/
def isPost : Event → Bool
  | .postRequest _ _ _ => true
  | _ => false

/-- Recognizes a label write. -/
def isSetText : Event → Bool
  | .setText _ _ => true
  | _ => false

/-- Recognizes an await of a response. -/
def isAwait : Event → Bool
  | .awaitResponse _ => true
  | _ => false

/-- Recognizes the preventDefault step. -/
def isPreventDefault : Event → Bool
  | .preventDefault => true
  | _ => false

/-- Number of POSTs to a given URL in a trace. -/
def postCount (evs : List Event) (url : String) : Nat :=
  (evs.filter (isPostTo url)).length

/-- Body of a request event, none for a non-POST event. -/
def reqBody : Event → Option String
  | .postRequest _ b _ => some b
  | _ => none

/-- Headers of a POST event. -/
def reqHeaders : Event → List (String × String)
  | .postRequest _ _ h => h
  | _ => []

/-- C7: every invocation of processLike performs preventDefault as its very
first step, before any network request, on every environment including the
ones where the invocation later fails; so the default navigation never
occurs. -/
theorem preventDefault_first (env : Env) :
    (processLike env).events.head? = some Event.preventDefault ∧
    ((processLike env).events.filter isPreventDefault).length = 1 := by
  unfold processLike
  cases h : env.likesResp with
  | error e => simp [isPreventDefault]
  | ok d =>
    cases hp : getProp d "likes" with
    | error e => simp [hp, isPreventDefault]
    | ok v =>
      cases hv : truthy v <;>
        cases hm : env.mutResp <;>
          simp [hp, hv, likeCafe, unlikeCafe, hm, isPreventDefault]

/-- C1: when the state-query response has likes equal to true, processLike
issues exactly one POST to /api/unlike, no POST to /api/like, the unlike
request carries the JSON body built from the cafe-id attribute value, and
the button text becomes Like. -/
theorem processLike_likes_true (env : Env) (d : JSVal) (cid : String)
    (hresp : env.likesResp = .ok d)
    (hlikes : getProp d "likes" = .ok (.bool true))
    (hattr : env.cafeAttr = some cid) :
    postCount (processLike env).events "/api/unlike" = 1 ∧
    postCount (processLike env).events "/api/like" = 0 ∧
    Event.postRequest "/api/unlike" (stringifyCafeId (some cid))
      [("Content-Type", "application/json")] ∈ (processLike env).events ∧
    (processLike env).label = "Like" := by
  unfold processLike
  cases hm : env.mutResp <;>
    simp [hresp, hlikes, hattr, truthy, unlikeCafe, hm, postCount, isPostTo]

/-- Witness for C1 at a concrete environment. -/
theorem processLike_likes_true_witness :
    postCount (processLike ⟨some "2", .ok (.obj [("likes", .bool true)]), 200,
      .ok .null, "Liked"⟩).events "/api/unlike" = 1 ∧
    postCount (processLike ⟨some "2", .ok (.obj [("likes", .bool true)]), 200,
      .ok .null, "Liked"⟩).events "/api/like" = 0 ∧
    Event.postRequest "/api/unlike" (stringifyCafeId (some "2"))
      [("Content-Type", "application/json")] ∈
      (processLike ⟨some "2", .ok (.obj [("likes", .bool true)]), 200,
        .ok .null, "Liked"⟩).events ∧
    (processLike ⟨some "2", .ok (.obj [("likes", .bool true)]), 200,
      .ok .null, "Liked"⟩).label = "Like" :=
  processLike_likes_true _ (.obj [("likes", .bool true)]) "2" rfl rfl rfl

/-- C2: when the state-query response has likes equal to false, processLike
issues exactly one POST to /api/like, no POST to /api/unlike, and the
button text becomes Liked. -/
theorem processLike_likes_false (env : Env) (d : JSVal)
    (hresp : env.likesResp = .ok d)
    (hlikes : getProp d "likes" = .ok (.bool false)) :
    postCount (processLike env).events "/api/like" = 1 ∧
    postCount (processLike env).events "/api/unlike" = 0 ∧
    (processLike env).label = "Liked" := by
  unfold processLike
  cases hm : env.mutResp <;>
    simp [hresp, hlikes, truthy, likeCafe, hm, postCount, isPostTo]

/-- Witness for C2 at a concrete environment. -/
theorem processLike_likes_false_witness :
    postCount (processLike ⟨some "2", .ok (.obj [("likes", .bool false)]), 200,
      .ok .null, "Like"⟩).events "/api/like" = 1 ∧
    postCount (processLike ⟨some "2", .ok (.obj [("likes", .bool false)]), 200,
      .ok .null, "Like"⟩).events "/api/unlike" = 0 ∧
    (processLike ⟨some "2", .ok (.obj [("likes", .bool false)]), 200,
      .ok .null, "Like"⟩).label = "Liked" :=
  processLike_likes_false _ (.obj [("likes", .bool false)]) rfl rfl

/-- C3: in every invocation of likeCafe and of unlikeCafe, for every
mutation response, the trace starts with the label write, then the POST,
then the await of the POST response; and the trace holds exactly one label
write and exactly one await, so the label write strictly precedes the await
of the mutation response. -/
theorem mutation_write_precedes_await (env : Env) (cafeId : Option String) :
    ((likeCafe env cafeId).events.take 3 =
      [Event.setText "like-btn" "Liked",
       Event.postRequest "/api/like" (stringifyCafeId cafeId)
         [("Content-Type", "application/json")],
       Event.awaitResponse "/api/like"]) ∧
    ((likeCafe env cafeId).events.filter isSetText).length = 1 ∧
    ((likeCafe env cafeId).events.filter isAwait).length = 1 ∧
    ((unlikeCafe env cafeId).events.take 3 =
      [Event.setText "like-btn" "Like",
       Event.postRequest "/api/unlike" (stringifyCafeId cafeId)
         [("Content-Type", "application/json")],
       Event.awaitResponse "/api/unlike"]) ∧
    ((unlikeCafe env cafeId).events.filter isSetText).length = 1 ∧
    ((unlikeCafe env cafeId).events.filter isAwait).length = 1 := by
  cases hm : env.mutResp <;>
    simp [likeCafe, unlikeCafe, hm, isSetText, isAwait]

/-- C4: when awaiting the state query fails (the GET to /api/likes rejects
or its body fails to parse as JSON), no POST at all is issued and the
button label keeps its initial value. -/
theorem processLike_query_failure (env : Env)
    (h : env.likesResp = .error ()) :
    ((processLike env).events.filter isPost).length = 0 ∧
    postCount (processLike env).events "/api/like" = 0 ∧
    postCount (processLike env).events "/api/unlike" = 0 ∧
    (processLike env).label = env.initialLabel := by
  simp [processLike, h, isPost, postCount, isPostTo]

/-- Witness for C4 at a concrete environment. -/
theorem processLike_query_failure_witness :
    ((processLike ⟨some "3", .error (), 200, .ok .null, "Like"⟩).events.filter
      isPost).length = 0 ∧
    postCount (processLike ⟨some "3", .error (), 200, .ok .null,
      "Like"⟩).events "/api/like" = 0 ∧
    postCount (processLike ⟨some "3", .error (), 200, .ok .null,
      "Like"⟩).events "/api/unlike" = 0 ∧
    (processLike ⟨some "3", .error (), 200, .ok .null, "Like"⟩).label =
      "Like" :=
  processLike_query_failure ⟨some "3", .error (), 200, .ok .null, "Like"⟩ rfl

/-- C5 counterexample: on a successfully parsed response that is an object
with no likes field, the invocation does not abort: it resolves, it issues
one POST to /api/like, and it rewrites the button label from Like to
Liked. -/
theorem processLike_missing_likes_cex :
    (processLike ⟨some "1", .ok (.obj []), 200, .ok .null,
      "Like"⟩).resolved = true ∧
    postCount (processLike ⟨some "1", .ok (.obj []), 200, .ok .null,
      "Like"⟩).events "/api/like" = 1 ∧
    (processLike ⟨some "1", .ok (.obj []), 200, .ok .null,
      "Like"⟩).label = "Liked" := by
  decide

/-- C5 amended: a parsed state-query response that is an object without a
likes field is not treated as an error: the property read yields undefined,
which is falsy, so the handler takes the like path, issuing exactly one
POST to /api/like, none to /api/unlike, and setting the button label to
Liked. -/
theorem processLike_missing_likes_like_path (env : Env)
    (fs : List (String × JSVal))
    (hresp : env.likesResp = .ok (.obj fs))
    (hmiss : lookupField fs "likes" = none) :
    postCount (processLike env).events "/api/like" = 1 ∧
    postCount (processLike env).events "/api/unlike" = 0 ∧
    (processLike env).label = "Liked" := by
  have hp : getProp (.obj fs) "likes" = .ok .undefined := by
    simp [getProp, hmiss]
  unfold processLike
  cases hm : env.mutResp <;>
    simp [hresp, hp, truthy, likeCafe, hm, postCount, isPostTo]

/-- Witness for the amended C5 at a concrete environment. -/
theorem processLike_missing_likes_like_path_witness :
    postCount (processLike ⟨some "4", .ok (.obj [("other", .num 7)]), 200,
      .ok .null, "Like"⟩).events "/api/like" = 1 ∧
    postCount (processLike ⟨some "4", .ok (.obj [("other", .num 7)]), 200,
      .ok .null, "Like"⟩).events "/api/unlike" = 0 ∧
    (processLike ⟨some "4", .ok (.obj [("other", .num 7)]), 200,
      .ok .null, "Like"⟩).label = "Liked" :=
  processLike_missing_likes_like_path _ [("other", .num 7)] rfl rfl

/-- C6: when the form carries the cafe-id attribute, every POST issued by
an invocation of processLike (hence by likeCafe or unlikeCafe) has as its
body the JSON serialization of the object binding the single key cafe_id to
the attribute value, and carries exactly the Content-Type
application/json header. -/
theorem mutation_request_shape (env : Env) (cid : String)
    (hattr : env.cafeAttr = some cid) :
    ∀ e ∈ (processLike env).events, isPost e = true →
      reqBody e = some ("\x7b\"cafe_id\":" ++ jsonQuote cid ++ "\x7d") ∧
      reqHeaders e = [("Content-Type", "application/json")] := by
  unfold processLike
  cases h : env.likesResp with
  | error e => simp [isPost]
  | ok d =>
    cases hp : getProp d "likes" with
    | error e => simp [hp, isPost]
    | ok v =>
      cases hv : truthy v <;>
        cases hm : env.mutResp <;>
          simp [hp, hv, hattr, likeCafe, unlikeCafe, hm, isPost, reqBody,
            reqHeaders, stringifyCafeId]

/-- Witness for C6: the theorem applied at a concrete environment and at
the one POST event of its trace. -/
theorem mutation_request_shape_witness :
    reqBody (Event.postRequest "/api/like" (stringifyCafeId (some "42"))
      [("Content-Type", "application/json")]) =
      some ("\x7b\"cafe_id\":" ++ jsonQuote "42" ++ "\x7d") ∧
    reqHeaders (Event.postRequest "/api/like" (stringifyCafeId (some "42"))
      [("Content-Type", "application/json")]) =
      [("Content-Type", "application/json")] :=
  mutation_request_shape
    ⟨some "42", .ok (.obj [("likes", .bool false)]), 200, .ok .null, "Like"⟩
    "42" rfl
    (Event.postRequest "/api/like" (stringifyCafeId (some "42"))
      [("Content-Type", "application/json")])
    (by decide) rfl

/-- C8: the final button label of an invocation is a function of the
attribute, the state-query response and the initial label only: two runs
that differ only in the HTTP status or parsed JSON body of the mutation
response (including a rejected mutation await) end with the same label, in
likeCafe, in unlikeCafe and in processLike. -/
theorem label_independent_of_mutResp (attr cafeId : Option String)
    (likes : Except Unit JSVal) (init : String) (s₁ s₂ : Nat)
    (m₁ m₂ : Except Unit JSVal) :
    (likeCafe ⟨attr, likes, s₁, m₁, init⟩ cafeId).label =
      (likeCafe ⟨attr, likes, s₂, m₂, init⟩ cafeId).label ∧
    (unlikeCafe ⟨attr, likes, s₁, m₁, init⟩ cafeId).label =
      (unlikeCafe ⟨attr, likes, s₂, m₂, init⟩ cafeId).label ∧
    (processLike ⟨attr, likes, s₁, m₁, init⟩).label =
      (processLike ⟨attr, likes, s₂, m₂, init⟩).label := by
  refine ⟨?_, ?_, ?_⟩
  · cases m₁ <;> cases m₂ <;> simp [likeCafe]
  · cases m₁ <;> cases m₂ <;> simp [unlikeCafe]
  · unfold processLike
    cases likes with
    | error e => simp
    | ok d =>
      cases hp : getProp d "likes" with
      | error e => simp [hp]
      | ok v =>
        cases hv : truthy v <;> cases m₁ <;> cases m₂ <;>
          simp [hp, hv, likeCafe, unlikeCafe]

/-- C9 counterexample: the JSON body null parses successfully, but the read
of its likes property throws, so neither likeCafe nor unlikeCafe is
invoked: the trace holds no POST at all and the invocation rejects. -/
theorem processLike_null_body_cex :
    ((processLike ⟨some "1", .ok .null, 200, .ok .null,
      "Like"⟩).events.filter isPost).length = 0 ∧
    (processLike ⟨some "1", .ok .null, 200, .ok .null,
      "Like"⟩).resolved = false := by
  decide

/-- C9 amended: on every successfully parsed state-query response whose
likes property read does not throw (every parsed body except null),
processLike branches on the truthiness of the likes value rather than
requiring a boolean: it POSTs exactly once, to /api/unlike iff the value is
truthy and to /api/like otherwise; in particular an object with no likes
field reads as undefined, which is falsy, and takes the like path. -/
theorem processLike_truthiness_branch (env : Env) (d v : JSVal)
    (hresp : env.likesResp = .ok d)
    (hprop : getProp d "likes" = .ok v) :
    postCount (processLike env).events "/api/unlike" =
      (if truthy v then 1 else 0) ∧
    postCount (processLike env).events "/api/like" =
      (if truthy v then 0 else 1) := by
  unfold processLike
  cases hv : truthy v <;> cases hm : env.mutResp <;>
    simp [hresp, hprop, hv, likeCafe, unlikeCafe, hm, postCount, isPostTo]

/-- Witness for the amended C9: an object with no likes field takes the
like path. -/
theorem processLike_truthiness_branch_witness :
    postCount (processLike ⟨some "5", .ok (.obj [("count", .num 3)]), 200,
      .ok .null, "Like"⟩).events "/api/unlike" = 0 ∧
    postCount (processLike ⟨some "5", .ok (.obj [("count", .num 3)]), 200,
      .ok .null, "Like"⟩).events "/api/like" = 1 :=
  processLike_truthiness_branch _ (.obj [("count", .num 3)]) .undefined rfl rfl

/-- C10 counterexample: with the cafe-id attribute absent, the read yields
undefined and does not throw, the GET URL interpolates the literal string
undefined, but the mutation body is not that value: JSON.stringify omits
the undefined-valued cafe_id property, so the one POST carries the empty
object as its body, which differs from a body carrying the value. -/
theorem processLike_missing_attr_cex :
    Event.getRequest "/api/likes?cafe_id=undefined" ∈
      (processLike ⟨none, .ok (.obj [("likes", .bool false)]), 200, .ok .null,
        "Like"⟩).events ∧
    ((processLike ⟨none, .ok (.obj [("likes", .bool false)]), 200, .ok .null,
      "Like"⟩).events.filter isPost) =
      [Event.postRequest "/api/like" "\x7b\x7d"
        [("Content-Type", "application/json")]] ∧
    ("\x7b\x7d" : String) ≠ "\x7b\"cafe_id\":\"undefined\"\x7d" := by
  decide

/-- C10 amended: with the cafe-id attribute absent, the handler does not
throw at the read; it issues the GET state query with the literal string
undefined interpolated as the cafe_id query parameter, and the undefined
value is passed to the chosen mutation, whose JSON body serialization drops
the undefined-valued key, so every POST of the invocation carries the empty
object as its body. -/
theorem processLike_missing_attr (env : Env) (h : env.cafeAttr = none) :
    Event.getRequest "/api/likes?cafe_id=undefined" ∈
      (processLike env).events ∧
    ∀ e ∈ (processLike env).events, isPost e = true →
      reqBody e = some "\x7b\x7d" := by
  unfold processLike
  cases hr : env.likesResp with
  | error e => simp [h, jsToString, isPost]
  | ok d =>
    cases hp : getProp d "likes" with
    | error e => simp [h, hp, jsToString, isPost]
    | ok v =>
      cases hv : truthy v <;>
        cases hm : env.mutResp <;>
          simp [h, hp, hv, jsToString, likeCafe, unlikeCafe, hm, isPost,
            reqBody, stringifyCafeId]

/-- Witness for the amended C10 at a concrete environment, with the body
conclusion applied at the one POST event of its trace. -/
theorem processLike_missing_attr_witness :
    Event.getRequest "/api/likes?cafe_id=undefined" ∈
      (processLike ⟨none, .ok (.obj [("likes", .bool true)]), 200, .ok .null,
        "Like"⟩).events ∧
    reqBody (Event.postRequest "/api/unlike" "\x7b\x7d"
      [("Content-Type", "application/json")]) = some "\x7b\x7d" :=
  ⟨(processLike_missing_attr
      ⟨none, .ok (.obj [("likes", .bool true)]), 200, .ok .null, "Like"⟩
      rfl).1,
   (processLike_missing_attr
      ⟨none, .ok (.obj [("likes", .bool true)]), 200, .ok .null, "Like"⟩
      rfl).2
     (Event.postRequest "/api/unlike" "\x7b\x7d"
       [("Content-Type", "application/json")])
     (by decide) rfl⟩

end LikesJs
